import Mathlib

/-!
Shallow embedding of the clockwork bytecode compiler and virtual machine
(oliverjakobs/clockwork), together with theorems settling the specification
claims about it.

The C sources embed two snapshots of the engine:
* `src/src/compiler.c` and `src/src/debug.c` — the compiler, chunk writer,
  error reporting and value printer (two concatenated revisions of
  `compiler.c`; both versions of `cw_make_constant` are modelled below);
* `src/unnamed/part_001` — the virtual machine (`cw_run`, stack operations).

In the C code one struct `cwRuntime` carries both the compiler fields
(chunk, previous token, locals, error/panic flags) and the VM fields
(chunk, ip, stack, strings, objects).  The embedding splits it into the
compiler view `cwCompiler` and the VM view `cwVM`; each function below
touches exactly the fields its C original touches.  Output written to
stderr is modelled as a list of lines accumulated in the state.

IEEE-754 doubles are abstracted as a type parameter `Num` carrying the
arithmetic and comparison operations the VM applies to them; the VM is
proved correct for every such type, and witnesses instantiate `Num := Int`.
-/

namespace Clockwork

/-! ## Opcodes

`chunk.h` is not part of the provided sources; the opcode enumeration is
taken in the order of the `switch` in `cw_disassemble_instruction`
(src/src/debug.c).  Only the relative distinctness of the codes matters to
the claims, not the concrete numbers. -/

def OP_CONSTANT : Nat := 0
def OP_NULL : Nat := 1
def OP_TRUE : Nat := 2
def OP_FALSE : Nat := 3
def OP_POP : Nat := 4
def OP_DEF_GLOBAL : Nat := 5
def OP_SET_GLOBAL : Nat := 6
def OP_GET_GLOBAL : Nat := 7
def OP_EQ : Nat := 8
def OP_NOTEQ : Nat := 9
def OP_LT : Nat := 10
def OP_GT : Nat := 11
def OP_LTEQ : Nat := 12
def OP_GTEQ : Nat := 13
def OP_ADD : Nat := 14
def OP_SUBTRACT : Nat := 15
def OP_MULTIPLY : Nat := 16
def OP_DIVIDE : Nat := 17
def OP_NOT : Nat := 18
def OP_NEGATE : Nat := 19
def OP_PRINT : Nat := 20
def OP_RETURN : Nat := 21

/-! ## Tokens (compiler view)

The compiler-side code needs of a token only its type tag (EOF / ERROR /
anything else), its lexeme and its line; `cwTokenType.other` stands for
every token type that is neither `TOKEN_EOF` nor `TOKEN_ERROR`. -/

inductive cwTokenType where
  | eof
  | err
  | other
  deriving DecidableEq

structure cwToken where
  type : cwTokenType
  lexeme : String
  line : Int
  deriving DecidableEq

/-! ## Values as seen by src/src/debug.c

`cw_print_value` switches over VAL_NULL / VAL_BOOL / VAL_INT / VAL_FLOAT /
VAL_OBJECT.  The float payload is carried as its 64-bit pattern; the only
object subtype is the string. -/

inductive cwValue where
  | val_null
  | val_bool (b : Bool)
  | val_int (n : Int)
  | val_float (bits : Nat)
  | val_object (s : String)
  deriving DecidableEq

/-- The printf conversion (or literal text) selected by the `switch` in
`cw_print_value` (src/src/debug.c) for each value tag.  The rendering of the
payload itself is done by the host `printf` and is left abstract; what the
model captures is which conversion each tag is routed to. -/
def cw_print_directive : cwValue → String
  | .val_null => "null"
  | .val_bool b => if b then "true" else "false"
  | .val_int _ => "%d"
  | .val_float _ => "%g"
  | .val_object _ => "%s"

/-! ## Compiler state (the compiler view of `cwRuntime`) -/

structure cwLocal where
  name : String
  depth : Int
  deriving DecidableEq

structure cwChunk (α : Type) where
  bytes : List Nat
  lines : List Int
  constants : List α
  deriving DecidableEq

/-- `cw_chunk_init`: all arrays empty (capacities are an allocation detail
not visible in the list model). -/
def cw_chunk_init {α : Type} : cwChunk α := ⟨[], [], []⟩

structure cwCompiler (α : Type) where
  chunk : cwChunk α
  previous : cwToken
  locals : List cwLocal
  scope_depth : Int
  error : Bool
  panic : Bool
  stderrOut : List String
  deriving DecidableEq

/-- The location fragment printed by `cw_syntax_error_at`: " at end" for
EOF, nothing for TOKEN_ERROR, " at `lexeme`" otherwise. -/
def cw_error_location (token : cwToken) : String :=
  if token.type = .eof then " at end"
  else if token.type ≠ .err then " at \x27" ++ token.lexeme ++ "\x27"
  else ""

/-- The full line `cw_syntax_error_at` writes to stderr. -/
def cw_error_line (token : cwToken) (msg : String) : String :=
  "[line " ++ toString token.line ++ "] Error" ++ cw_error_location token ++ ": " ++ msg

/-- `cw_syntax_error_at` (src/src/debug.c): suppressed entirely while
`panic` is set; otherwise sets `panic`, prints the formatted message to
stderr and sets `error`. -/
def cw_syntax_error_at {α : Type} (cw : cwCompiler α) (token : cwToken) (msg : String) :
    cwCompiler α :=
  if cw.panic then cw
  else
    { cw with
      panic := true
      error := true
      stderrOut := cw.stderrOut ++ [cw_error_line token msg] }

/-! ## Constants pool -/

/-- `cw_chunk_add_constant` (src/src/compiler.c, first revision): appends
unconditionally and returns the index of the new slot. -/
def cw_chunk_add_constant {α : Type} (chunk : cwChunk α) (val : α) : cwChunk α × Nat :=
  ({ chunk with constants := chunk.constants ++ [val] }, chunk.constants.length)

/-- First revision of `cw_make_constant` (src/src/compiler.c:16): adds the
value through `cw_chunk_add_constant` and only then checks the returned
index against UINT8_MAX, so on overflow the pool has already grown. -/
def cw_make_constant_v1 {α : Type} (cw : cwCompiler α) (val : α) : cwCompiler α × Nat :=
  let step := cw_chunk_add_constant cw.chunk val
  let cw2 : cwCompiler α := { cw with chunk := step.1 }
  if step.2 > 255 then
    (cw_syntax_error_at cw2 cw2.previous "Too many constants in one chunk.", 0)
  else
    (cw2, step.2)

/-- Second revision of `cw_make_constant` (src/src/compiler.c:198): grows
the raw array and stores `val` at index `const_len`, then checks
`const_len > UINT8_MAX`; on overflow it returns 0 without incrementing
`const_len`, so the store lands beyond the pool length and the observable
pool (its first `const_len` entries) is unchanged. -/
def cw_make_constant_v2 {α : Type} (cw : cwCompiler α) (val : α) : cwCompiler α × Nat :=
  if cw.chunk.constants.length > 255 then
    (cw_syntax_error_at cw cw.previous "Too many constants in one chunk.", 0)
  else
    ({ cw with chunk := { cw.chunk with constants := cw.chunk.constants ++ [val] } },
      cw.chunk.constants.length)

/-! ## Writing bytecode -/

/-- `cw_chunk_write`: appends one byte and its source line in lockstep.
The C parameter is a `uint8_t`; the implicit conversion at call sites is
the reduction mod 256. -/
def cw_chunk_write {α : Type} (chunk : cwChunk α) (byte : Nat) (line : Int) : cwChunk α :=
  { chunk with bytes := chunk.bytes ++ [byte % 256], lines := chunk.lines ++ [line] }

/-- `cw_emit_byte`: writes through `cw_chunk_write` at the previous token's
line. -/
def cw_emit_byte {α : Type} (cw : cwCompiler α) (byte : Nat) : cwCompiler α :=
  { cw with chunk := cw_chunk_write cw.chunk byte cw.previous.line }

/-- `cw_emit_jump`: emits the jump opcode and two 0xff placeholder bytes,
returning the offset of the first placeholder (`chunk->len - 2`). -/
def cw_emit_jump {α : Type} (cw : cwCompiler α) (instruction : Nat) : cwCompiler α × Nat :=
  let cw2 := cw_emit_byte (cw_emit_byte (cw_emit_byte cw instruction) 0xff) 0xff
  (cw2, cw2.chunk.bytes.length - 2)

/-- `cw_patch_jump`: computes the displacement `chunk->len - offset - 2`,
reports "Too much code to jump over." when it exceeds UINT16_MAX, and in
either case stores its truncated big-endian halves at `offset` and
`offset + 1`. -/
def cw_patch_jump {α : Type} (cw : cwCompiler α) (offset : Nat) : cwCompiler α :=
  let jump := cw.chunk.bytes.length - offset - 2
  let cw2 :=
    if jump > 65535 then cw_syntax_error_at cw cw.previous "Too much code to jump over."
    else cw
  { cw2 with chunk := { cw2.chunk with bytes :=
      (cw2.chunk.bytes.set offset ((jump >>> 8) % 256)).set (offset + 1) (jump % 256) } }

/-! ## Locals -/

/-- `cw_add_local`: refuses (with "Too many variables in scope.") once
`local_count` exceeds UINT8_MAX, otherwise appends the local with the
sentinel depth -1 (declared but uninitialized). -/
def cw_add_local {α : Type} (cw : cwCompiler α) (name : cwToken) : cwCompiler α :=
  if cw.locals.length > 255 then
    cw_syntax_error_at cw cw.previous "Too many variables in scope."
  else
    { cw with locals := cw.locals ++ [⟨name.lexeme, -1⟩] }

/-- `cw_identifiers_equal`: byte-for-byte lexeme comparison (length check
plus memcmp). -/
def cw_identifiers_equal (a b : String) : Bool :=
  a = b

/-- Search loop of `cw_resolve_local`: the C code walks indices
`local_count - 1` down to `0`, so a match nearer the end of the list wins.
Returns the matching index together with that local's depth. -/
def cw_resolve_aux (name : String) : List cwLocal → Option (Nat × Int)
  | [] => none
  | l :: rest =>
    match cw_resolve_aux name rest with
    | some (i, d) => some (i + 1, d)
    | none => if cw_identifiers_equal l.name name then some (0, l.depth) else none

/-- `cw_resolve_local`: resolves an identifier to the innermost matching
local's index; if that local still has depth `-1` the compile error
"Can not read local variable in its own initializer." is reported at the
identifier token.  Returns -1 when no local matches. -/
def cw_resolve_local {α : Type} (cw : cwCompiler α) (name : cwToken) : Int × cwCompiler α :=
  match cw_resolve_aux name.lexeme cw.locals with
  | some (i, d) =>
    if d < 0 then
      ((i : Int),
        cw_syntax_error_at cw name "Can not read local variable in its own initializer.")
    else ((i : Int), cw)
  | none => (-1, cw)

/-! ## Jump opcodes and the abstract parse run (for the compile contract)

`chunk.h`, `parser.c` and `statement.c` are not among the provided
sources.  The jump opcodes continue the enumeration; the parser is
abstracted below as an arbitrary sequence of the chunk-mutating effects it
is built from. -/

def OP_JUMP_IF_FALSE : Nat := 22
def OP_JUMP : Nat := 23
def OP_JUMP_IF_TRUE : Nat := 24
def OP_LOOP : Nat := 25

/-- Modelled from the spec: `parser.c` and `statement.c` (the Pratt parser
and statement compilers) are not under the provided sources.  Per §4.2 every
effect they have on the compiler state goes through the primitives of
`compiler.c`: writing a byte/line pair, patching a jump, adding a constant,
reporting a syntax error, or clearing panic mode at a synchronization
point.  A parse run is abstracted as an arbitrary finite sequence of these
effects. -/
inductive cwEmitOp (α : Type) where
  | write (byte : Nat) (line : Int)
  | patch (offset : Nat)
  | addConst (val : α)
  | report (token : cwToken) (msg : String)
  | sync

def cw_apply_op {α : Type} (cw : cwCompiler α) : cwEmitOp α → cwCompiler α
  | .write b l => { cw with chunk := cw_chunk_write cw.chunk b l }
  | .patch offset => cw_patch_jump cw offset
  | .addConst v => (cw_make_constant_v2 cw v).1
  | .report t m => cw_syntax_error_at cw t m
  | .sync => { cw with panic := false }

def cw_apply_ops {α : Type} (cw : cwCompiler α) (ops : List (cwEmitOp α)) : cwCompiler α :=
  ops.foldl cw_apply_op cw

/-- `cw_compiler_end`: emits the final RETURN opcode. -/
def cw_compiler_end {α : Type} (cw : cwCompiler α) : cwCompiler α :=
  cw_emit_byte cw OP_RETURN

/-- `cw_compile` (src/src/compiler.c:319): resets the compiler state over a
fresh chunk, runs the parse loop (abstracted as `ops`), then appends RETURN
through `cw_compiler_end` and returns `!cw->error`. -/
def cw_compile_model {α : Type} (prev : cwToken) (ops : List (cwEmitOp α)) : cwCompiler α :=
  cw_compiler_end (cw_apply_ops
    { chunk := cw_chunk_init, previous := prev, locals := [], scope_depth := 0,
      error := false, panic := false, stderrOut := [] } ops)

/-! ## The virtual machine (src/unnamed/part_001)

This snapshot's value model has the single numeric case `Number`, a C
`double`.  The doubles are abstracted as the type parameter `Num` together
with the operations the VM applies to them; witnesses instantiate
`Num := Int`. -/

/-- `Value` (the VM snapshot's tagged union): MAKE_NULL / MAKE_BOOL /
MAKE_NUMBER / MAKE_OBJECT.  The only object subtype is the interned string,
carried here by its bytes. -/
inductive Value (Num : Type) where
  | null
  | bool (b : Bool)
  | number (n : Num)
  | object (s : String)
  deriving DecidableEq

/-- `Chunk` as the VM reads it: bytes, parallel lines, constants pool. -/
structure Chunk (Num : Type) where
  bytes : List Nat
  lines : List Int
  constants : List (Value Num)
  deriving DecidableEq

/-- `InterpretResult`. -/
inductive InterpretResult where
  | ok
  | compileError
  | runtimeError
  deriving DecidableEq

/-- The VM view of `cwRuntime`: chunk, instruction pointer, value stack
(top at the head; its length is `stack_index`), the string intern table
(modelled by its list of keys) and the stderr lines produced so far.  The
object registry is subsumed by `strings` since strings are the only object
subtype. -/
structure cwVM (Num : Type) where
  chunk : Chunk Num
  ip : Nat
  stack : List (Value Num)
  strings : List String
  stderrOut : List String
  deriving DecidableEq

/-- Modelled from the spec: `CW_STACK_MAX` is declared in `runtime.h`,
which is not among the provided sources; §3 fixes the stack capacity at
256. -/
def CW_STACK_MAX : Nat := 256

section VM

variable {Num : Type} [DecidableEq Num] [Inhabited Num]
  [Add Num] [Sub Num] [Mul Num] [Div Num] [Neg Num]
  [LT Num] [LE Num]
  [DecidableRel ((· < ·) : Num → Num → Prop)]
  [DecidableRel ((· ≤ ·) : Num → Num → Prop)]

/-- IS_NUMBER. -/
def IS_NUMBER : Value Num → Bool
  | .number _ => true
  | _ => false

/-- IS_STRING (IS_OBJECT with the string subtype, the only one). -/
def IS_STRING : Value Num → Bool
  | .object _ => true
  | _ => false

/-- AS_NUMBER: the payload of a Number; the C macro is only ever applied
under an IS_NUMBER guard, so the fallback is never reached. -/
def AS_NUMBER : Value Num → Num
  | .number n => n
  | _ => default

/-- AS_STRING: the payload of a String object; guarded likewise. -/
def AS_STRING : Value Num → String
  | .object s => s
  | _ => ""

/-- Modelled from the spec: `cw_is_falsey` lives in the value header, not
among the provided sources; §4.3 and the glossary fix that exactly `Null`
and `Bool(false)` are falsey. -/
def cw_is_falsey : Value Num → Bool
  | .null => true
  | .bool b => !b
  | _ => false

/-- Modelled from the spec: `cw_values_equal` (value.c) is not among the
provided sources; §3 fixes equality as same-tag same-payload, cross-tag
`false`, with string objects compared by identity, which interning makes
byte equality. -/
def cw_values_equal : Value Num → Value Num → Bool
  | .null, .null => true
  | .bool a, .bool b => a = b
  | .number a, .number b => a = b
  | .object a, .object b => a = b
  | _, _ => false

/-- `cw_reset_stack`: `stack_index := 0`. -/
def cw_reset_stack (cw : cwVM Num) : cwVM Num :=
  { cw with stack := [] }

/-- `cw_runtime_error` (src/unnamed/part_001:10): prints the message and a
`[line N] in script` trailer to stderr (N is the line of the byte at
`ip - 1`, the opcode already fetched), then resets the stack. -/
def cw_runtime_error (cw : cwVM Num) (msg : String) : cwVM Num :=
  { cw with
    stack := []
    stderrOut := cw.stderrOut ++
      [msg, "[line " ++ toString (cw.chunk.lines.getD (cw.ip - 1) 0) ++ "] in script"] }

/-- `cw_push_stack` (src/unnamed/part_001:159): at `stack_index >=
CW_STACK_MAX` it reports the "Stack overflow" runtime error and returns
without pushing — it cannot stop the dispatch loop, since its return type
is void. -/
def cw_push_stack (cw : cwVM Num) (val : Value Num) : cwVM Num :=
  if cw.stack.length ≥ CW_STACK_MAX then cw_runtime_error cw "Stack overflow"
  else { cw with stack := val :: cw.stack }

/-- `cw_pop_stack`: returns the top and decrements `stack_index`.  Popping
an empty stack is undefined behaviour in the C (`stack[-1]`), which the
compiler is required to make unreachable; the model returns Null and
leaves the stack empty there. -/
def cw_pop_stack (cw : cwVM Num) : Value Num × cwVM Num :=
  match cw.stack with
  | [] => (.null, cw)
  | v :: rest => (v, { cw with stack := rest })

/-- `cw_peek_stack`: reads `stack[stack_index - 1 - distance]`. -/
def cw_peek_stack (cw : cwVM Num) (distance : Nat) : Value Num :=
  cw.stack.getD distance .null

/-- Modelled from the spec: `cw_str_concat` (object.c) is not among the
provided sources; §4.3 and §5 fix that it builds the byte concatenation,
looks it up in the intern table and registers it only when absent, so the
result is always the canonical interned string. -/
def cw_str_concat (cw : cwVM Num) (a b : String) : String × cwVM Num :=
  let s := a ++ b
  if s ∈ cw.strings then (s, cw) else (s, { cw with strings := cw.strings ++ [s] })

/-- One iteration of the dispatch loop either continues with a new state
or leaves the loop with an `InterpretResult` (the C `return` statements
inside the switch). -/
inductive StepOut (Num : Type) where
  | next (cw : cwVM Num)
  | halt (r : InterpretResult) (cw : cwVM Num)

/-- The BINARY_OP macro of `cw_run`: both operands must be numbers, else
the "Operands must be numbers." runtime error leaves the loop; otherwise
pop b, pop a, push `f a b`. -/
def cw_binary_op (cw : cwVM Num) (f : Num → Num → Value Num) : StepOut Num :=
  if !(IS_NUMBER (cw_peek_stack cw 0)) || !(IS_NUMBER (cw_peek_stack cw 1)) then
    .halt .runtimeError (cw_runtime_error cw "Operands must be numbers.")
  else
    let pb := cw_pop_stack cw
    let pa := cw_pop_stack pb.2
    .next (cw_push_stack pa.2 (f (AS_NUMBER pa.1) (AS_NUMBER pb.1)))

/-- One iteration of the `switch` in `cw_run` (src/unnamed/part_001:39).
READ_BYTE post-increments `ip`; an opcode with no case in this snapshot's
switch falls through and the loop continues. -/
def cw_step (cw0 : cwVM Num) : StepOut Num :=
  let instruction := cw0.chunk.bytes.getD cw0.ip 0
  let cw : cwVM Num := { cw0 with ip := cw0.ip + 1 }
  if instruction = OP_CONSTANT then
    let idx := cw.chunk.bytes.getD cw.ip 0
    let cw : cwVM Num := { cw with ip := cw.ip + 1 }
    .next (cw_push_stack cw (cw.chunk.constants.getD idx .null))
  else if instruction = OP_NULL then .next (cw_push_stack cw .null)
  else if instruction = OP_TRUE then .next (cw_push_stack cw (.bool true))
  else if instruction = OP_FALSE then .next (cw_push_stack cw (.bool false))
  else if instruction = OP_POP then .next (cw_pop_stack cw).2
  else if instruction = OP_EQ ∨ instruction = OP_NOTEQ then
    let pb := cw_pop_stack cw
    let pa := cw_pop_stack pb.2
    let eq := cw_values_equal pa.1 pb.1
    .next (cw_push_stack pa.2 (.bool (if instruction = OP_EQ then eq else !eq)))
  else if instruction = OP_LT then cw_binary_op cw (fun a b => .bool (a < b))
  else if instruction = OP_GT then cw_binary_op cw (fun a b => .bool (b < a))
  else if instruction = OP_LTEQ then cw_binary_op cw (fun a b => .bool (a ≤ b))
  else if instruction = OP_GTEQ then cw_binary_op cw (fun a b => .bool (b ≤ a))
  else if instruction = OP_ADD then
    if IS_STRING (cw_peek_stack cw 0) && IS_STRING (cw_peek_stack cw 1) then
      let pb := cw_pop_stack cw
      let pa := cw_pop_stack pb.2
      let sc := cw_str_concat pa.2 (AS_STRING pa.1) (AS_STRING pb.1)
      .next (cw_push_stack sc.2 (.object sc.1))
    else if IS_NUMBER (cw_peek_stack cw 0) && IS_NUMBER (cw_peek_stack cw 1) then
      let pb := cw_pop_stack cw
      let pa := cw_pop_stack pb.2
      .next (cw_push_stack pa.2 (.number (AS_NUMBER pa.1 + AS_NUMBER pb.1)))
    else
      .halt .runtimeError (cw_runtime_error cw "Operands must be two numbers or two strings.")
  else if instruction = OP_SUBTRACT then cw_binary_op cw (fun a b => .number (a - b))
  else if instruction = OP_MULTIPLY then cw_binary_op cw (fun a b => .number (a * b))
  else if instruction = OP_DIVIDE then cw_binary_op cw (fun a b => .number (a / b))
  else if instruction = OP_NOT then
    let pv := cw_pop_stack cw
    .next (cw_push_stack pv.2 (.bool (cw_is_falsey pv.1)))
  else if instruction = OP_NEGATE then
    if !(IS_NUMBER (cw_peek_stack cw 0)) then
      .halt .runtimeError (cw_runtime_error cw "Operand must be a number.")
    else
      let pv := cw_pop_stack cw
      .next (cw_push_stack pv.2 (.number (-(AS_NUMBER pv.1))))
  else if instruction = OP_PRINT then .next (cw_pop_stack cw).2
  else if instruction = OP_RETURN then .halt .ok cw
  else .next cw

/-- `cw_run`: the dispatch loop, with explicit fuel standing for the number
of iterations still allowed (`none` = the loop has not left the switch
within the given fuel). -/
def cw_run : Nat → cwVM Num → Option (InterpretResult × cwVM Num)
  | 0, _ => none
  | fuel + 1, cw =>
    match cw_step cw with
    | .next cw2 => cw_run fuel cw2
    | .halt r cw2 => some (r, cw2)

end VM

/-! ## Concrete states used by the witnesses and counterexamples -/

/-- An empty compiler state over an empty chunk. -/
def CW0 : cwCompiler Nat :=
  { chunk := cw_chunk_init, previous := ⟨.other, "x", 1⟩, locals := [], scope_depth := 0,
    error := false, panic := false, stderrOut := [] }

/-- The same state already in panic mode. -/
def CW0p : cwCompiler Nat :=
  { CW0 with panic := true }

/-- A compiler state whose constants pool already holds 256 values. -/
def CW2 : cwCompiler Nat :=
  { CW0 with chunk := ⟨[], [], List.replicate 256 0⟩ }

/-- A compiler state with one declared-but-uninitialized local "a". -/
def CW8 : cwCompiler Nat :=
  { CW0 with locals := [⟨"a", -1⟩], scope_depth := 1 }

/-- The identifier token read back inside its own initializer. -/
def TOK8 : cwToken := ⟨.other, "a", 2⟩

/-- A compiler state whose chunk is long enough that patching a jump at
offset 0 overflows the 16-bit displacement. -/
def CW10 : cwCompiler Nat :=
  { CW0 with chunk := ⟨List.replicate 65539 0, List.replicate 65539 1, []⟩ }

/-- Bytecode pushing `n` constants (index 0) and then returning. -/
def c1Bytes : Nat → List Nat
  | 0 => [OP_RETURN]
  | n + 1 => OP_CONSTANT :: 0 :: c1Bytes n

/-- A VM about to execute 257 pushes and a return: the 257th push happens
with the stack already full (sp = 256). -/
def CW1 : cwVM Int :=
  { chunk := { bytes := c1Bytes 257, lines := List.replicate 515 1,
               constants := [Value.number 0] },
    ip := 0, stack := [], strings := [], stderrOut := [] }

/-- A VM about to negate a boolean, with further bytecode (TRUE, RETURN)
behind the faulting opcode. -/
def CW5 : cwVM Int :=
  { chunk := { bytes := [OP_NEGATE, OP_TRUE, OP_RETURN], lines := [1, 1, 1],
               constants := [] },
    ip := 0, stack := [Value.bool true], strings := [], stderrOut := [] }

/-- A VM about to add two numbers. -/
def CW3n : cwVM Int :=
  { chunk := { bytes := [OP_ADD, OP_RETURN], lines := [1, 1], constants := [] },
    ip := 0, stack := [Value.number 2, Value.number 40], strings := [], stderrOut := [] }

/-- A VM about to add two strings. -/
def CW3s : cwVM Int :=
  { chunk := { bytes := [OP_ADD, OP_RETURN], lines := [1, 1], constants := [] },
    ip := 0, stack := [Value.object "bar", Value.object "foo"], strings := ["foo", "bar"],
    stderrOut := [] }

/-- A VM about to add a number to a boolean. -/
def CW3e : cwVM Int :=
  { chunk := { bytes := [OP_ADD, OP_RETURN], lines := [1, 1], constants := [] },
    ip := 0, stack := [Value.number 2, Value.bool true], strings := [], stderrOut := [] }

/-! ## Helper lemmas -/

lemma getD_set_self {α : Type} (l : List α) (i : Nat) (a d : α) (h : i < l.length) :
    (l.set i a).getD i d = a := by
  induction l generalizing i with
  | nil => simp at h
  | cons x xs ih =>
    cases i with
    | zero => rfl
    | succ n => simpa using ih n (by simpa using h)

lemma getD_set_of_ne {α : Type} (l : List α) (i j : Nat) (a d : α) (h : i ≠ j) :
    (l.set i a).getD j d = l.getD j d := by
  induction l generalizing i j with
  | nil => simp
  | cons x xs ih =>
    cases i with
    | zero =>
      cases j with
      | zero => exact absurd rfl h
      | succ m => simp
    | succ n =>
      cases j with
      | zero => simp
      | succ m => simpa using ih n m (fun hh => h (by rw [hh]))

/-- Unfolding of `cw_patch_jump`: the flag part is the possible error
report, the chunk part is the unconditional truncated big-endian store. -/
lemma cw_patch_jump_def {α : Type} (cw : cwCompiler α) (offset : Nat) :
    cw_patch_jump cw offset =
      let jump := cw.chunk.bytes.length - offset - 2
      let base :=
        if 65535 < jump then
          cw_syntax_error_at cw cw.previous "Too much code to jump over."
        else cw
      { base with
        chunk := { cw.chunk with
          bytes := (cw.chunk.bytes.set offset ((jump >>> 8) % 256)).set (offset + 1) (jump % 256) } } := by
  unfold cw_patch_jump
  by_cases h : 65535 < cw.chunk.bytes.length - offset - 2
  · simp only [if_pos h]
    unfold cw_syntax_error_at
    by_cases hp : cw.panic <;> simp [hp]
  · simp only [if_neg h]

lemma cw_patch_jump_chunk_bytes {α : Type} (cw : cwCompiler α) (offset : Nat) :
    (cw_patch_jump cw offset).chunk.bytes =
      (cw.chunk.bytes.set offset (((cw.chunk.bytes.length - offset - 2) >>> 8) % 256)).set (offset + 1) ((cw.chunk.bytes.length - offset - 2) % 256) := by
  rw [cw_patch_jump_def]

lemma cw_patch_jump_chunk_lines {α : Type} (cw : cwCompiler α) (offset : Nat) :
    (cw_patch_jump cw offset).chunk.lines = cw.chunk.lines := by
  rw [cw_patch_jump_def]

lemma cw_patch_jump_flags_of_le {α : Type} (cw : cwCompiler α) (offset : Nat)
    (h : cw.chunk.bytes.length - offset - 2 ≤ 65535) :
    (cw_patch_jump cw offset).stderrOut = cw.stderrOut ∧
    (cw_patch_jump cw offset).error = cw.error ∧
    (cw_patch_jump cw offset).panic = cw.panic := by
  rw [cw_patch_jump_def]
  simp [Nat.not_lt.mpr h]

lemma cw_patch_jump_flags_of_gt {α : Type} (cw : cwCompiler α) (offset : Nat)
    (h : 65535 < cw.chunk.bytes.length - offset - 2) (hp : cw.panic = false) :
    (cw_patch_jump cw offset).error = true ∧
    (cw_patch_jump cw offset).panic = true ∧
    (cw_patch_jump cw offset).stderrOut = cw.stderrOut ++
      [cw_error_line cw.previous "Too much code to jump over."] := by
  rw [cw_patch_jump_def]
  simp [h, cw_syntax_error_at, hp]

lemma CW10_bytes_length : CW10.chunk.bytes.length = 65539 :=
  List.length_replicate 65539 0

/-- Recomposing a 16-bit big-endian pair recovers the displacement. -/
lemma bigend_decode (jump : Nat) (h : jump ≤ 65535) :
    ((jump >>> 8) % 256) * 256 + jump % 256 = jump := by
  have hs : jump >>> 8 = jump / 256 := by
    rw [Nat.shiftRight_eq_div_pow]
  rw [hs]
  omega

lemma cw_resolve_aux_eq_none (name : String) (L : List cwLocal)
    (h : ∀ l ∈ L, l.name ≠ name) : cw_resolve_aux name L = none := by
  induction L with
  | nil => rfl
  | cons l rest ih =>
    have h1 : l.name ≠ name := h l (List.mem_cons_self l rest)
    have h2 := ih (fun x hx => h x (List.mem_cons_of_mem l hx))
    simp [cw_resolve_aux, h2, cw_identifiers_equal, h1]

/-- The search of `cw_resolve_local` runs from the end of the locals array,
so the last matching local wins. -/
lemma cw_resolve_aux_last (name : String) (x : cwLocal) (pre post : List cwLocal)
    (hx : x.name = name) (h : ∀ l ∈ post, l.name ≠ name) :
    cw_resolve_aux name (pre ++ x :: post) = some (pre.length, x.depth) := by
  induction pre with
  | nil =>
    simp [cw_resolve_aux, cw_resolve_aux_eq_none name post h, cw_identifiers_equal, hx]
  | cons p pre ih =>
    simp [cw_resolve_aux, ih]

lemma cw_apply_op_parallel {α : Type} (cw : cwCompiler α) (op : cwEmitOp α)
    (h : cw.chunk.bytes.length = cw.chunk.lines.length) :
    (cw_apply_op cw op).chunk.bytes.length = (cw_apply_op cw op).chunk.lines.length := by
  cases op with
  | write b l => simp [cw_apply_op, cw_chunk_write, h]
  | patch offset =>
    simp only [cw_apply_op]
    rw [cw_patch_jump_chunk_bytes, cw_patch_jump_chunk_lines]
    simp [h]
  | addConst v =>
    simp only [cw_apply_op, cw_make_constant_v2]
    by_cases hc : cw.chunk.constants.length > 255
    · simp only [if_pos hc]
      unfold cw_syntax_error_at
      by_cases hp : cw.panic <;> simp [hp, h]
    · simp [if_neg hc, h]
  | report t m =>
    simp only [cw_apply_op]
    unfold cw_syntax_error_at
    by_cases hp : cw.panic <;> simp [hp, h]
  | sync => simpa using h

lemma cw_apply_ops_parallel {α : Type} (ops : List (cwEmitOp α)) : ∀ (cw : cwCompiler α),
    cw.chunk.bytes.length = cw.chunk.lines.length →
    (cw_apply_ops cw ops).chunk.bytes.length = (cw_apply_ops cw ops).chunk.lines.length := by
  induction ops with
  | nil => intro cw h; simpa [cw_apply_ops] using h
  | cons op rest ih =>
    intro cw h
    simpa [cw_apply_ops, List.foldl] using ih (cw_apply_op cw op) (cw_apply_op_parallel cw op h)

/-! ## Claim theorems (compiler side) -/

/-- C9: the first syntax error reported through `cw_syntax_error_at` sets
`error = true` and `panic = true` (and prints one formatted line); while
`panic` remains set every subsequent call is suppressed: it prints nothing
and changes no compiler state. -/
theorem c9_panic_suppresses_errors {α : Type} (cw : cwCompiler α) (token : cwToken)
    (msg : String) :
    (cw.panic = false →
      (cw_syntax_error_at cw token msg).error = true ∧
      (cw_syntax_error_at cw token msg).panic = true ∧
      (cw_syntax_error_at cw token msg).stderrOut =
        cw.stderrOut ++ [cw_error_line token msg]) ∧
    (cw.panic = true → cw_syntax_error_at cw token msg = cw) := by
  constructor
  · intro h
    simp [cw_syntax_error_at, h]
  · intro h
    simp [cw_syntax_error_at, h]

theorem c9_panic_suppresses_errors_witness :
    ((cw_syntax_error_at CW0 TOK8 "Expect expression.").error = true ∧
      (cw_syntax_error_at CW0 TOK8 "Expect expression.").panic = true ∧
      (cw_syntax_error_at CW0 TOK8 "Expect expression.").stderrOut =
        CW0.stderrOut ++ [cw_error_line TOK8 "Expect expression."]) ∧
    cw_syntax_error_at CW0p TOK8 "Expect expression." = CW0p :=
  ⟨(c9_panic_suppresses_errors CW0 TOK8 "Expect expression.").1 rfl,
    (c9_panic_suppresses_errors CW0p TOK8 "Expect expression.").2 rfl⟩

/-- C8: resolving an identifier whose innermost matching local still has
the sentinel depth -1 (declared but uninitialized) reports "Can not read
local variable in its own initializer." at that identifier and sets the
error flag; the local's index is still returned. -/
theorem c8_read_own_initializer {α : Type} (cw : cwCompiler α) (name : cwToken)
    (pre post : List cwLocal)
    (hpanic : cw.panic = false)
    (hloc : cw.locals = pre ++ ⟨name.lexeme, -1⟩ :: post)
    (hpost : ∀ l ∈ post, l.name ≠ name.lexeme) :
    (cw_resolve_local cw name).1 = (pre.length : Int) ∧
    (cw_resolve_local cw name).2.error = true ∧
    (cw_resolve_local cw name).2.stderrOut = cw.stderrOut ++
      [cw_error_line name "Can not read local variable in its own initializer."] := by
  have haux := cw_resolve_aux_last name.lexeme ⟨name.lexeme, -1⟩ pre post rfl hpost
  simp [cw_resolve_local, hloc, haux, cw_syntax_error_at, hpanic]

theorem c8_read_own_initializer_witness :
    (CW8.panic = false ∧ CW8.locals = [] ++ ⟨TOK8.lexeme, -1⟩ :: [] ∧
      (∀ l ∈ ([] : List cwLocal), l.name ≠ TOK8.lexeme)) ∧
    ((cw_resolve_local CW8 TOK8).1 = (([] : List cwLocal).length : Int) ∧
      (cw_resolve_local CW8 TOK8).2.error = true ∧
      (cw_resolve_local CW8 TOK8).2.stderrOut = CW8.stderrOut ++
        [cw_error_line TOK8 "Can not read local variable in its own initializer."]) :=
  ⟨⟨rfl, rfl, by simp⟩,
    c8_read_own_initializer CW8 TOK8 [] [] rfl rfl (by simp)⟩

set_option maxRecDepth 8192 in
/-- C2 (code bug): evaluated on a pool already holding 256 constants, the
first revision of `cw_make_constant` (src/src/compiler.c:16) raises "Too
many constants in one chunk." and returns 0, but only after appending the
value — the pool grows to 257 entries, violating the required
check-before-add.  The second revision (src/src/compiler.c:198) raises the
same error, returns 0 and leaves the pool at 256 entries. -/
theorem c2_make_constant_overflow :
    (cw_make_constant_v1 CW2 7).2 = 0 ∧
    (cw_make_constant_v1 CW2 7).1.error = true ∧
    (cw_make_constant_v1 CW2 7).1.chunk.constants.length = 257 ∧
    (cw_make_constant_v2 CW2 7).2 = 0 ∧
    (cw_make_constant_v2 CW2 7).1.error = true ∧
    (cw_make_constant_v2 CW2 7).1.chunk.constants.length = 256 := by
  decide

/-- C4 counterexample: the value type of src/src/debug.c has the numeric
case VAL_INT distinct from VAL_FLOAT, and `cw_print_value` routes it to the
%d conversion, not %g. -/
theorem c4_counterexample_int_case :
    cwValue.val_int 3 ≠ cwValue.val_float 3 ∧
    cw_print_directive (cwValue.val_int 3) = "%d" ∧
    cw_print_directive (cwValue.val_float 3) = "%g" ∧
    "%d" ≠ "%g" := by
  refine ⟨by simp, rfl, rfl, by decide⟩

/-- C4 amended: the value type has two numeric cases; the printer renders
VAL_INT with %d and VAL_FLOAT with %g. -/
theorem c4_two_numeric_cases :
    (∀ n : Int, cw_print_directive (cwValue.val_int n) = "%d") ∧
    (∀ bits : Nat, cw_print_directive (cwValue.val_float bits) = "%g") ∧
    ∀ (n : Int) (bits : Nat), cwValue.val_int n ≠ cwValue.val_float bits := by
  exact ⟨fun _ => rfl, fun _ => rfl, fun n bits => by simp⟩

/-- C6: a jump emitted by `cw_emit_jump` leaves its two operand bytes as
the final two bytes of the chunk at the returned offset; a later
`cw_patch_jump offset` stores the displacement `chunk.len - offset - 2`
big-endian in those two bytes when it fits in 16 bits (recomposing the two
bytes recovers it exactly, and no error is raised), and raises the compile
error "Too much code to jump over." when it exceeds UINT16_MAX. -/
theorem c6_emit_patch_jump {α : Type} (cw : cwCompiler α) (instruction : Nat)
    (cw2 : cwCompiler α) (offset : Nat)
    (hoff : (cw_emit_jump cw instruction).2 = offset)
    (hlen : offset + 2 ≤ cw2.chunk.bytes.length) :
    (cw_emit_jump cw instruction).1.chunk.bytes.length = offset + 2 ∧
    (cw2.chunk.bytes.length - offset - 2 ≤ 65535 →
      (cw_patch_jump cw2 offset).chunk.bytes.getD offset 0 * 256 +
          (cw_patch_jump cw2 offset).chunk.bytes.getD (offset + 1) 0 =
        cw2.chunk.bytes.length - offset - 2 ∧
      (cw_patch_jump cw2 offset).stderrOut = cw2.stderrOut ∧
      (cw_patch_jump cw2 offset).error = cw2.error) ∧
    (65535 < cw2.chunk.bytes.length - offset - 2 → cw2.panic = false →
      (cw_patch_jump cw2 offset).error = true ∧
      (cw_patch_jump cw2 offset).stderrOut = cw2.stderrOut ++
        [cw_error_line cw2.previous "Too much code to jump over."]) := by
  refine ⟨?_, ?_, ?_⟩
  · subst hoff
    simp [cw_emit_jump, cw_emit_byte, cw_chunk_write]
  · intro hle
    have hb := cw_patch_jump_chunk_bytes cw2 offset
    have ho1 : offset < cw2.chunk.bytes.length := by omega
    have ho2 : offset + 1 < cw2.chunk.bytes.length := by omega
    refine ⟨?_, (cw_patch_jump_flags_of_le cw2 offset hle).1,
      (cw_patch_jump_flags_of_le cw2 offset hle).2.1⟩
    rw [hb]
    rw [getD_set_of_ne _ (offset + 1) offset _ _ (by omega)]
    rw [getD_set_self _ offset _ _ ho1]
    rw [getD_set_self _ (offset + 1) _ _ (by simpa [List.length_set] using ho2)]
    exact bigend_decode _ hle
  · intro hgt hp
    exact ⟨(cw_patch_jump_flags_of_gt cw2 offset hgt hp).1,
      (cw_patch_jump_flags_of_gt cw2 offset hgt hp).2.2⟩

theorem c6_emit_patch_jump_witness :
    ((cw_emit_jump CW0 OP_JUMP).2 = 1 ∧
      1 + 2 ≤ (cw_emit_jump CW0 OP_JUMP).1.chunk.bytes.length) ∧
    ((cw_emit_jump CW0 OP_JUMP).1.chunk.bytes.length = 1 + 2 ∧
      ((cw_emit_jump CW0 OP_JUMP).1.chunk.bytes.length - 1 - 2 ≤ 65535 →
        (cw_patch_jump (cw_emit_jump CW0 OP_JUMP).1 1).chunk.bytes.getD 1 0 * 256 +
            (cw_patch_jump (cw_emit_jump CW0 OP_JUMP).1 1).chunk.bytes.getD (1 + 1) 0 =
          (cw_emit_jump CW0 OP_JUMP).1.chunk.bytes.length - 1 - 2 ∧
        (cw_patch_jump (cw_emit_jump CW0 OP_JUMP).1 1).stderrOut =
          (cw_emit_jump CW0 OP_JUMP).1.stderrOut ∧
        (cw_patch_jump (cw_emit_jump CW0 OP_JUMP).1 1).error =
          (cw_emit_jump CW0 OP_JUMP).1.error) ∧
      (65535 < (cw_emit_jump CW0 OP_JUMP).1.chunk.bytes.length - 1 - 2 →
        (cw_emit_jump CW0 OP_JUMP).1.panic = false →
        (cw_patch_jump (cw_emit_jump CW0 OP_JUMP).1 1).error = true ∧
        (cw_patch_jump (cw_emit_jump CW0 OP_JUMP).1 1).stderrOut =
          (cw_emit_jump CW0 OP_JUMP).1.stderrOut ++
            [cw_error_line (cw_emit_jump CW0 OP_JUMP).1.previous
              "Too much code to jump over."])) :=
  ⟨⟨rfl, by decide⟩,
    c6_emit_patch_jump CW0 OP_JUMP (cw_emit_jump CW0 OP_JUMP).1 1 rfl (by decide)⟩

/-- C10: when the displacement overflows 16 bits, `cw_patch_jump` reports
the compile error but still performs the store: the truncated big-endian
halves of the displacement land at `offset` and `offset + 1` — the chunk is
mutated despite the error. -/
theorem c10_patch_jump_truncated_write {α : Type} (cw : cwCompiler α) (offset : Nat)
    (hlen : offset + 2 ≤ cw.chunk.bytes.length)
    (hbig : 65535 < cw.chunk.bytes.length - offset - 2)
    (hpanic : cw.panic = false) :
    (cw_patch_jump cw offset).error = true ∧
    (cw_patch_jump cw offset).stderrOut = cw.stderrOut ++
      [cw_error_line cw.previous "Too much code to jump over."] ∧
    (cw_patch_jump cw offset).chunk.bytes =
      (cw.chunk.bytes.set offset (((cw.chunk.bytes.length - offset - 2) >>> 8) % 256)).set (offset + 1) ((cw.chunk.bytes.length - offset - 2) % 256) ∧
    (cw_patch_jump cw offset).chunk.bytes.getD (offset + 1) 0 =
      (cw.chunk.bytes.length - offset - 2) % 256 := by
  have hfl := cw_patch_jump_flags_of_gt cw offset hbig hpanic
  have hb := cw_patch_jump_chunk_bytes cw offset
  refine ⟨hfl.1, hfl.2.2, hb, ?_⟩
  rw [hb]
  exact getD_set_self _ (offset + 1) _ _ (by simp [List.length_set]; omega)

theorem c10_patch_jump_truncated_write_witness :
    (0 + 2 ≤ CW10.chunk.bytes.length ∧
      65535 < CW10.chunk.bytes.length - 0 - 2 ∧ CW10.panic = false) ∧
    ((cw_patch_jump CW10 0).error = true ∧
      (cw_patch_jump CW10 0).stderrOut = CW10.stderrOut ++
        [cw_error_line CW10.previous "Too much code to jump over."] ∧
      (cw_patch_jump CW10 0).chunk.bytes =
        (CW10.chunk.bytes.set 0 (((CW10.chunk.bytes.length - 0 - 2) >>> 8) % 256)).set (0 + 1) ((CW10.chunk.bytes.length - 0 - 2) % 256) ∧
      (cw_patch_jump CW10 0).chunk.bytes.getD (0 + 1) 0 =
        (CW10.chunk.bytes.length - 0 - 2) % 256) :=
  ⟨⟨by rw [CW10_bytes_length]; omega, by rw [CW10_bytes_length]; omega, rfl⟩,
    c10_patch_jump_truncated_write CW10 0 (by rw [CW10_bytes_length]; omega)
      (by rw [CW10_bytes_length]; omega) rfl⟩

/-- C7: for every abstract parse run, the chunk produced by the compile
pipeline keeps `len(bytes) = len(lines)` and its final byte is the RETURN
opcode appended by `cw_compiler_end`. -/
theorem c7_compile_terminated {α : Type} (prev : cwToken) (ops : List (cwEmitOp α)) :
    (cw_compile_model prev ops).chunk.bytes.length =
      (cw_compile_model prev ops).chunk.lines.length ∧
    (cw_compile_model prev ops).chunk.bytes.getLast? = some OP_RETURN := by
  constructor
  · have h0 := cw_apply_ops_parallel ops
      { chunk := cw_chunk_init, previous := prev, locals := [], scope_depth := 0,
        error := false, panic := false, stderrOut := [] } rfl
    simp [cw_compile_model, cw_compiler_end, cw_emit_byte, cw_chunk_write, h0]
  · simp [cw_compile_model, cw_compiler_end, cw_emit_byte, cw_chunk_write,
      List.getLast?_concat, OP_RETURN]

theorem c7_compile_terminated_witness :
    (cw_compile_model TOK8
        [cwEmitOp.write OP_NULL 1, cwEmitOp.addConst (5 : Nat)]).chunk.bytes.length =
      (cw_compile_model TOK8
        [cwEmitOp.write OP_NULL 1, cwEmitOp.addConst (5 : Nat)]).chunk.lines.length ∧
    (cw_compile_model TOK8
        [cwEmitOp.write OP_NULL 1, cwEmitOp.addConst (5 : Nat)]).chunk.bytes.getLast? =
      some OP_RETURN :=
  c7_compile_terminated TOK8 [cwEmitOp.write OP_NULL 1, cwEmitOp.addConst (5 : Nat)]

theorem c4_two_numeric_cases_witness :
    cw_print_directive (cwValue.val_int 7) = "%d" ∧
    cw_print_directive (cwValue.val_float 7) = "%g" ∧
    cwValue.val_int 7 ≠ cwValue.val_float 7 :=
  ⟨c4_two_numeric_cases.1 7, c4_two_numeric_cases.2.1 7, c4_two_numeric_cases.2.2 7 7⟩

/-! ## Claim theorems (VM side) -/

section VMTheorems

variable {Num : Type} [DecidableEq Num] [Inhabited Num]
  [Add Num] [Sub Num] [Mul Num] [Div Num] [Neg Num]
  [LT Num] [LE Num]
  [DecidableRel ((· < ·) : Num → Num → Prop)]
  [DecidableRel ((· ≤ ·) : Num → Num → Prop)]

/-- C5: executing OP_NEGATE on a non-Number operand raises the runtime
error: for every amount of remaining fuel (hence regardless of any
remaining bytecode) `cw_run` returns immediately with the RuntimeError
result, and the resulting stack is reset to empty. -/
theorem c5_runtime_error_aborts (cw : cwVM Num) (fuel : Nat)
    (hop : cw.chunk.bytes.getD cw.ip 0 = OP_NEGATE)
    (hv : IS_NUMBER (cw_peek_stack cw 0) = false) :
    cw_run (fuel + 1) cw =
      some (InterpretResult.runtimeError,
        cw_runtime_error { cw with ip := cw.ip + 1 } "Operand must be a number.") ∧
    (cw_runtime_error { cw with ip := cw.ip + 1 } "Operand must be a number.").stack = [] := by
  have hstep : cw_step cw =
      StepOut.halt InterpretResult.runtimeError
        (cw_runtime_error { cw with ip := cw.ip + 1 } "Operand must be a number.") := by
    revert hv
    simp only [cw_step, hop, cw_peek_stack]
    norm_num [OP_CONSTANT, OP_NULL, OP_TRUE, OP_FALSE, OP_POP, OP_EQ, OP_NOTEQ, OP_LT,
      OP_GT, OP_LTEQ, OP_GTEQ, OP_ADD, OP_SUBTRACT, OP_MULTIPLY, OP_DIVIDE, OP_NOT,
      OP_NEGATE, OP_PRINT, OP_RETURN]
    intro hv
    simp [hv]
  refine ⟨?_, rfl⟩
  simp only [cw_run, hstep]

theorem c5_runtime_error_aborts_witness :
    (CW5.chunk.bytes.getD CW5.ip 0 = OP_NEGATE ∧
      IS_NUMBER (cw_peek_stack CW5 0) = false) ∧
    (cw_run (7 + 1) CW5 =
      some (InterpretResult.runtimeError,
        cw_runtime_error { CW5 with ip := CW5.ip + 1 } "Operand must be a number.") ∧
    (cw_runtime_error { CW5 with ip := CW5.ip + 1 } "Operand must be a number.").stack = []) :=
  ⟨⟨rfl, rfl⟩, c5_runtime_error_aborts CW5 7 rfl rfl⟩

/-- C3: executing OP_ADD pops two values; if both are Numbers it pushes
their sum, if both are Strings it pushes the interned concatenation (the
result is registered in the VM's string table), and in every other case it
raises the "Operands must be two numbers or two strings." runtime error and
`cw_run` returns immediately with RuntimeError. -/
theorem c3_add_semantics (cw : cwVM Num) (b a : Value Num) (rest : List (Value Num))
    (hop : cw.chunk.bytes.getD cw.ip 0 = OP_ADD)
    (hst : cw.stack = b :: a :: rest)
    (hlen : cw.stack.length ≤ CW_STACK_MAX) :
    (∀ x y, a = Value.number x → b = Value.number y →
      cw_step cw = StepOut.next { cw with ip := cw.ip + 1, stack := Value.number (x + y) :: rest }) ∧
    (∀ sa sb, a = Value.object sa → b = Value.object sb →
      ∃ cw2 : cwVM Num, cw_step cw = StepOut.next cw2 ∧
        cw2.stack = Value.object (sa ++ sb) :: rest ∧
        (sa ++ sb) ∈ cw2.strings ∧
        cw2.ip = cw.ip + 1) ∧
    ((IS_STRING b && IS_STRING a) = false → (IS_NUMBER b && IS_NUMBER a) = false →
      ∀ fuel, cw_run (fuel + 1) cw =
        some (InterpretResult.runtimeError,
          cw_runtime_error { cw with ip := cw.ip + 1 }
            "Operands must be two numbers or two strings.")) := by
  have hrest : ¬ rest.length ≥ CW_STACK_MAX := by
    rw [hst] at hlen
    simp only [List.length_cons, CW_STACK_MAX] at hlen ⊢
    omega
  have hbase : ∀ out : StepOut Num,
      (if IS_STRING (cw_peek_stack { cw with ip := cw.ip + 1 } 0) &&
            IS_STRING (cw_peek_stack { cw with ip := cw.ip + 1 } 1) then
          let pb := cw_pop_stack { cw with ip := cw.ip + 1 }
          let pa := cw_pop_stack pb.2
          let sc := cw_str_concat pa.2 (AS_STRING pa.1) (AS_STRING pb.1)
          StepOut.next (cw_push_stack sc.2 (Value.object sc.1))
        else if IS_NUMBER (cw_peek_stack { cw with ip := cw.ip + 1 } 0) &&
            IS_NUMBER (cw_peek_stack { cw with ip := cw.ip + 1 } 1) then
          let pb := cw_pop_stack { cw with ip := cw.ip + 1 }
          let pa := cw_pop_stack pb.2
          StepOut.next (cw_push_stack pa.2 (Value.number (AS_NUMBER pa.1 + AS_NUMBER pb.1)))
        else
          StepOut.halt InterpretResult.runtimeError
            (cw_runtime_error { cw with ip := cw.ip + 1 }
              "Operands must be two numbers or two strings.")) = out →
      cw_step cw = out := by
    intro out hout
    rw [← hout]
    simp only [cw_step, hop]
    norm_num [OP_CONSTANT, OP_NULL, OP_TRUE, OP_FALSE, OP_POP, OP_EQ, OP_NOTEQ, OP_LT,
      OP_GT, OP_LTEQ, OP_GTEQ, OP_ADD, OP_SUBTRACT, OP_MULTIPLY, OP_DIVIDE, OP_NOT,
      OP_NEGATE, OP_PRINT, OP_RETURN]
  refine ⟨?_, ?_, ?_⟩
  · intro x y hx hy
    subst hx hy
    apply hbase
    simp [cw_peek_stack, hst, IS_STRING, IS_NUMBER, cw_pop_stack, cw_push_stack,
      AS_NUMBER, hrest]
  · intro sa sb hx hy
    subst hx hy
    by_cases hmem : (sa ++ sb) ∈ cw.strings
    · refine ⟨{ cw with ip := cw.ip + 1, stack := Value.object (sa ++ sb) :: rest }, ?_, rfl,
        by simpa using hmem, rfl⟩
      apply hbase
      simp [cw_peek_stack, hst, IS_STRING, cw_pop_stack, cw_push_stack, AS_STRING,
        cw_str_concat, hmem, hrest]
    · refine ⟨{ cw with ip := cw.ip + 1, stack := Value.object (sa ++ sb) :: rest, strings := cw.strings ++ [sa ++ sb] }, ?_, rfl, by simp, rfl⟩
      apply hbase
      simp [cw_peek_stack, hst, IS_STRING, cw_pop_stack, cw_push_stack, AS_STRING,
        cw_str_concat, hmem, hrest]
  · intro hs hn fuel
    have hstep : cw_step cw =
        StepOut.halt InterpretResult.runtimeError
          (cw_runtime_error { cw with ip := cw.ip + 1 }
            "Operands must be two numbers or two strings.") := by
      apply hbase
      simp [cw_peek_stack, hst, hs, hn]
    simp only [cw_run, hstep]

theorem c3_add_semantics_witness :
    (cw_step CW3n =
      StepOut.next { CW3n with ip := CW3n.ip + 1, stack := [Value.number ((40 : Int) + 2)] }) ∧
    (∃ cw2 : cwVM Int, cw_step CW3s = StepOut.next cw2 ∧
      cw2.stack = [Value.object ("foo" ++ "bar")] ∧
      ("foo" ++ "bar") ∈ cw2.strings ∧
      cw2.ip = CW3s.ip + 1) ∧
    cw_run (5 + 1) CW3e =
      some (InterpretResult.runtimeError,
        cw_runtime_error { CW3e with ip := CW3e.ip + 1 }
          "Operands must be two numbers or two strings.") :=
  ⟨(c3_add_semantics CW3n (Value.number 2) (Value.number 40) [] rfl rfl
      (by decide)).1 40 2 rfl rfl,
    (c3_add_semantics CW3s (Value.object "bar") (Value.object "foo") [] rfl rfl
      (by decide)).2.1 "foo" "bar" rfl rfl,
    (c3_add_semantics CW3e (Value.number 2) (Value.bool true) [] rfl rfl
      (by decide)).2.2 rfl rfl 5⟩

end VMTheorems

set_option maxRecDepth 200000 in
/-- C1 (code bug): evaluated on a program that executes a push with the
stack already holding 256 values (`CW1`: 257 CONSTANT instructions, then
RETURN), `cw_push_stack` reports the "Stack overflow" runtime error (the
two stderr lines appear) but cannot stop the dispatch loop: `cw_run`
continues past the faulting opcode and returns the Ok result, not
RuntimeError. -/
theorem c1_stack_overflow_continues :
    (cw_run 300 CW1).map Prod.fst = some InterpretResult.ok ∧
    (cw_run 300 CW1).map (fun p => p.2.stderrOut) =
      some ["Stack overflow", "[line 1] in script"] := by
  decide

end Clockwork

